import Mathlib

/-! Verification of the MP4 background-page server (src/server.js).

The routes are modelled as pure functions over explicit inputs: the
environment configuration, the uploaded file, the sixteen random bytes
drawn for the identifier, the current timestamp, and the outcome of the
backend put or sign call.  Each route returns its HTTP response together
with a record of the object-store command it issued, when it issued one,
so that the store-contact behaviour of every branch is visible in the
model. -/

/-- Hexadecimal digit table used when formatting the UUID bytes, lowercase
as produced by the platform generator.  The argument is a nibble value. -/
def hexDigit (n : Nat) : Char :=
  match n with
  | 0 => '0' | 1 => '1' | 2 => '2' | 3 => '3'
  | 4 => '4' | 5 => '5' | 6 => '6' | 7 => '7'
  | 8 => '8' | 9 => '9' | 10 => 'a' | 11 => 'b'
  | 12 => 'c' | 13 => 'd' | 14 => 'e' | 15 => 'f'
  | _ => '0'

/-- The sixteen random bytes drawn from the randomness source by one call of
the identifier generator, crypto.randomUUID at src/server.js line 53, which
draws 128 random bits. -/
@[ext]
structure Bytes16 where
  b0 : Fin 256
  b1 : Fin 256
  b2 : Fin 256
  b3 : Fin 256
  b4 : Fin 256
  b5 : Fin 256
  b6 : Fin 256
  b7 : Fin 256
  b8 : Fin 256
  b9 : Fin 256
  b10 : Fin 256
  b11 : Fin 256
  b12 : Fin 256
  b13 : Fin 256
  b14 : Fin 256
  b15 : Fin 256
deriving DecidableEq

/-- The RFC 4122 version-4 masking performed by crypto.randomUUID: the high
nibble of byte 6 is forced to the version value 4, the top two bits of byte 8
are forced to the variant pattern 10, and every other random byte is kept
unchanged.  Byte 6 becomes its low nibble plus 64, byte 8 its low six bits
plus 128. -/
def setVersionVariant (r : Bytes16) : Bytes16 :=
  ⟨r.b0, r.b1, r.b2, r.b3, r.b4, r.b5,
   ⟨r.b6.val % 16 + 64, by omega⟩, r.b7,
   ⟨r.b8.val % 64 + 128, by omega⟩, r.b9,
   r.b10, r.b11, r.b12, r.b13, r.b14, r.b15⟩

/-- Two lowercase hex digits of one byte. -/
def byteHex (n : Nat) : List Char := [hexDigit (n / 16), hexDigit (n % 16)]

/-- The 36-character hyphenated hex layout of a UUID: bytes grouped
4-2-2-2-6 with a hyphen between groups. -/
def uuidChars (x : Bytes16) : List Char :=
  byteHex x.b0.val ++ byteHex x.b1.val ++ byteHex x.b2.val ++ byteHex x.b3.val ++ ['-'] ++
  byteHex x.b4.val ++ byteHex x.b5.val ++ ['-'] ++
  byteHex x.b6.val ++ byteHex x.b7.val ++ ['-'] ++
  byteHex x.b8.val ++ byteHex x.b9.val ++ ['-'] ++
  byteHex x.b10.val ++ byteHex x.b11.val ++ byteHex x.b12.val ++
  byteHex x.b13.val ++ byteHex x.b14.val ++ byteHex x.b15.val

/-- Model of crypto.randomUUID (src/server.js line 53): an RFC 4122 version-4
UUID built from sixteen random bytes with the version and variant bits set,
formatted as a hyphenated lowercase hex string. -/
def randomUUID (r : Bytes16) : String := String.mk (uuidChars (setVersionVariant r))

/-- One character of the identifier alphabet: a decimal digit, a lowercase or
uppercase hex letter, or a hyphen. -/
def isIdChar (c : Char) : Bool :=
  (decide ('0' ≤ c) && decide (c ≤ '9')) ||
  (decide ('a' ≤ c) && decide (c ≤ 'f')) ||
  (decide ('A' ≤ c) && decide (c ≤ 'F')) ||
  c == '-'

/-- validId from src/server.js line 113: the anchored regex accepting twenty
or more characters drawn only from hex digits and hyphens. -/
def validId (id : String) : Bool := decide (20 ≤ id.length) && id.data.all isIdChar

/-- The fixed deterministic key mapping id plus ".mp4" used by both the
upload write (line 54) and the playback sign (line 92). -/
def objectKey (id : String) : String := id ++ ".mp4"

/-- The JS replace of one-or-more trailing slashes with the empty string,
applied to PUBLIC_BASE_URL at src/server.js line 70. -/
def stripTrailingSlashes (s : String) : String :=
  String.mk ((s.data.reverse.dropWhile fun c => c == '/').reverse)

/-- JS logical-or defaulting as applied to req.file.originalname at line 64:
an absent value and the empty string are falsy and yield the default. -/
def jsOr (o : Option String) (d : String) : String :=
  match o with
  | none => d
  | some s => if s = "" then d else s

/-- JS String.prototype.slice with start 0: keep the first n characters. -/
def jsSlice (s : String) (n : Nat) : String := String.mk (s.data.take n)

/-- The startup configuration values the routes read: the bucket name and
the public base URL. -/
structure Config where
  s3Bucket : String
  publicBaseUrl : String
deriving DecidableEq

/-- The single multipart file as multer hands it to the handler. -/
structure IncomingFile where
  originalname : Option String
  mimetype : String
  size : Nat
  buffer : List Nat
deriving DecidableEq

/-- The PutObjectCommand issued by the upload route (src/server.js
lines 56-68). -/
structure PutCommand where
  bucket : String
  key : String
  body : List Nat
  contentType : String
  cacheControl : String
  originalname : String
  uploadedat : String
deriving DecidableEq

/-- The presign request issued by the raw-playback route (lines 92-97):
bucket, key and the expiresIn seconds. -/
structure SignRequest where
  bucket : String
  key : String
  expiresIn : Nat
deriving DecidableEq

/-- An HTTP response of the server: plain text, an HTML page, a redirect, a
JSON success body carrying id and url, or a JSON error body. -/
inductive Resp where
  | text (status : Nat) (body : String)
  | html (status : Nat) (body : String)
  | redirect (status : Nat) (location : String)
  | jsonOk (id : String) (url : String)
  | jsonError (status : Nat) (error : String)
deriving DecidableEq

/-- The HTTP status code of a response; res.json without an explicit status
is a 200. -/
def Resp.status : Resp → Nat
  | .text s _ => s
  | .html s _ => s
  | .redirect s _ => s
  | .jsonOk _ _ => 200
  | .jsonError s _ => s

/-- The viewer page template viewHtml (src/server.js lines 201-229) with the
identifier interpolated into the video source path. -/
def viewHtml (id : String) : String :=
  "<!doctype html>\n<html lang=\"en\">\n<head>\n  <meta charset=\"utf-8\" />\n  <meta name=\"viewport\" content=\"width=device-width,initial-scale=1\" />\n  <title>Video Background</title>\n  <style>\n    html,body\x7bheight:100%;margin:0;background:#000;overflow:hidden\x7d\n    video\x7bposition:fixed;inset:0;width:100vw;height:100vh;object-fit:cover;z-index:-1;background:#000\x7d\n    .veil\x7bposition:fixed;inset:0;background:linear-gradient(to bottom, rgba(0,0,0,.35), rgba(0,0,0,.55));pointer-events:none\x7d\n    .hint\x7bposition:fixed;left:14px;bottom:14px;font-family:system-ui,-apple-system,Segoe UI,Roboto;color:rgba(255,255,255,.75);font-size:12px;background:rgba(0,0,0,.28);border:1px solid rgba(255,255,255,.12);padding:8px 10px;border-radius:12px;backdrop-filter: blur(8px)\x7d\n  </style>\n</head>\n<body>\n  <video id=\"bg\" autoplay muted playsinline loop>\n    <source src=\"/raw/" ++ id ++ "\" type=\"video/mp4\" />\n  </video>\n  <div class=\"veil\"></div>\n  <div class=\"hint\">iOS đôi khi bắt chạm để phát. Nên cứ tap 1 cái.</div>\n  <script>\n    const v=document.getElementById(\x27bg\x27);\n    const kick=async()=>\x7btry\x7bawait v.play()\x7dcatch\x7b\x7d\x7d;\n    document.addEventListener(\x27click\x27,kick,\x7bonce:true\x7d);\n    document.addEventListener(\x27touchstart\x27,kick,\x7bonce:true\x7d);\n    kick();\n  </script>\n</body>\n</html>"

/-- POST /upload (src/server.js lines 49-75) together with the multer
configuration (lines 34-41) and the error middleware (lines 106-108).  A
request with no file is a 400 Missing file.  A declared type other than
video/mp4 is rejected by the fileFilter before the body is consumed and
surfaces through the error middleware as a 400 with multer's message; a file
whose size exceeds the 250 MiB fileSize limit is rejected as a 400 File too
large.  Otherwise the identifier is generated from the random bytes, the
object is put under id plus ".mp4" with content type video/mp4, the immutable
year-long cache-control header and the originalname and uploadedat metadata,
and on put success the response carries the id and the viewer url built from
PUBLIC_BASE_URL with trailing slashes stripped; a failed put is a 500 with
the backend message.  The second component records the PutObjectCommand
issued, none when the request was rejected before the write. -/
def uploadRoute (cfg : Config) (file : Option IncomingFile) (r : Bytes16)
    (now : String) (putResult : Except String Unit) : Resp × Option PutCommand :=
  match file with
  | none => (.jsonError 400 "Missing file", none)
  | some f =>
    if f.mimetype ≠ "video/mp4" then (.jsonError 400 "Only video/mp4 allowed", none)
    else if 250 * 1024 * 1024 < f.size then (.jsonError 400 "File too large", none)
    else
      let id := randomUUID r
      let cmd : PutCommand :=
        ⟨cfg.s3Bucket, id ++ ".mp4", f.buffer, "video/mp4",
         "public, max-age=31536000, immutable",
         jsSlice (jsOr f.originalname "video.mp4") 200, now⟩
      match putResult with
      | .ok _ => (.jsonOk id (stripTrailingSlashes cfg.publicBaseUrl ++ "/v/" ++ id), some cmd)
      | .error e => (.jsonError 500 e, some cmd)

/-- GET /v/:id (src/server.js lines 77-84): a 400 Bad id when the identifier
fails validId, otherwise the viewer page.  The route never contacts the
object store, so its second component is always none. -/
def vRoute (id : String) : Resp × Option SignRequest :=
  if validId id = true then (.html 200 (viewHtml id), none)
  else (.text 400 "Bad id", none)

/-- GET /raw/:id (src/server.js lines 86-104): a 400 Bad id when the
identifier fails validId; otherwise a presign of the key id plus ".mp4" with
expiresIn 60 times 10 seconds, answered with a 302 redirect to the signed
URL, and a 404 Not found when the signing call throws.  The contents of the
object store are threaded in as the list of keys present so that theorems
can speak about never-uploaded identifiers; the handler itself never
consults it, exactly as in the source, which performs no existence check. -/
def rawRoute (cfg : Config) (_store : List String)
    (sign : String → Nat → Except String String) (id : String) :
    Resp × Option SignRequest :=
  if validId id = true then
    let key := id ++ ".mp4"
    match sign key (60 * 10) with
    | .ok signed => (.redirect 302 signed, some ⟨cfg.s3Bucket, key, 60 * 10⟩)
    | .error _ => (.text 404 "Not found", some ⟨cfg.s3Bucket, key, 60 * 10⟩)
  else (.text 400 "Bad id", none)

/-- Model of the S3 presigner getSignedUrl as the routes use it: it computes
a URL embedding the key and the expiry locally and, per the store client's
contract in the spec, performs no existence check, so it succeeds whether or
not the object was ever uploaded. -/
def presign (key : String) (ttl : Nat) : Except String String :=
  .ok ("https://store.example/" ++ key ++ "?expires=" ++ toString ttl)

/-- A sample draw of the sixteen random bytes: all zero. -/
def sampleBytes : Bytes16 := ⟨0, 0, 0, 0, 0, 0, 0, 0, 0, 0, 0, 0, 0, 0, 0, 0⟩

/-- A second sample draw differing from sampleBytes only in the version
nibble of byte 6. -/
def sampleBytesB : Bytes16 := ⟨0, 0, 0, 0, 0, 0, 64, 0, 0, 0, 0, 0, 0, 0, 0, 0⟩

/-- A sample configuration. -/
def sampleCfg : Config := ⟨"bucket", "https://example.com"⟩

/-- A sample well-formed MP4 upload. -/
def sampleFile : IncomingFile := ⟨some "clip.mp4", "video/mp4", 5, [0, 1, 2, 3, 4]⟩

/-- A sample MP4 upload whose multipart filename is the empty string. -/
def emptyNameFile : IncomingFile := ⟨some "", "video/mp4", 3, [1, 2, 3]⟩

/-- A sample upload with a declared content type other than video/mp4. -/
def webmFile : IncomingFile := ⟨some "clip.webm", "video/webm", 5, [0, 1, 2]⟩

/-- A sample upload one byte above the 250 MiB ceiling. -/
def bigFile : IncomingFile := ⟨some "big.mp4", "video/mp4", 250 * 1024 * 1024 + 1, [0]⟩

/-! Helper lemmas about the identifier generator and the key mapping. -/

theorem hexDigit_inj : ∀ a < 16, ∀ b < 16, hexDigit a = hexDigit b → a = b := by decide

theorem hexDigit_isId : ∀ n < 16, isIdChar (hexDigit n) = true := by decide

theorem byte_recover (a b : Nat) (ha : a < 256) (hb : b < 256)
    (h1 : hexDigit (a / 16) = hexDigit (b / 16))
    (h2 : hexDigit (a % 16) = hexDigit (b % 16)) : a = b := by
  have hd := hexDigit_inj (a / 16) (by omega) (b / 16) (by omega) h1
  have hm := hexDigit_inj (a % 16) (by omega) (b % 16) (by omega) h2
  omega

theorem uuidChars_inj (x y : Bytes16) (h : uuidChars x = uuidChars y) : x = y := by
  simp only [uuidChars, byteHex, List.cons_append, List.nil_append] at h
  injection h with g1 h
  injection h with g2 h
  injection h with g3 h
  injection h with g4 h
  injection h with g5 h
  injection h with g6 h
  injection h with g7 h
  injection h with g8 h
  injection h with d1 h
  injection h with g9 h
  injection h with g10 h
  injection h with g11 h
  injection h with g12 h
  injection h with d2 h
  injection h with g13 h
  injection h with g14 h
  injection h with g15 h
  injection h with g16 h
  injection h with d3 h
  injection h with g17 h
  injection h with g18 h
  injection h with g19 h
  injection h with g20 h
  injection h with d4 h
  injection h with g21 h
  injection h with g22 h
  injection h with g23 h
  injection h with g24 h
  injection h with g25 h
  injection h with g26 h
  injection h with g27 h
  injection h with g28 h
  injection h with g29 h
  injection h with g30 h
  injection h with g31 h
  injection h with g32 h
  have e0 : x.b0 = y.b0 := Fin.val_injective (byte_recover _ _ x.b0.isLt y.b0.isLt g1 g2)
  have e1 : x.b1 = y.b1 := Fin.val_injective (byte_recover _ _ x.b1.isLt y.b1.isLt g3 g4)
  have e2 : x.b2 = y.b2 := Fin.val_injective (byte_recover _ _ x.b2.isLt y.b2.isLt g5 g6)
  have e3 : x.b3 = y.b3 := Fin.val_injective (byte_recover _ _ x.b3.isLt y.b3.isLt g7 g8)
  have e4 : x.b4 = y.b4 := Fin.val_injective (byte_recover _ _ x.b4.isLt y.b4.isLt g9 g10)
  have e5 : x.b5 = y.b5 := Fin.val_injective (byte_recover _ _ x.b5.isLt y.b5.isLt g11 g12)
  have e6 : x.b6 = y.b6 := Fin.val_injective (byte_recover _ _ x.b6.isLt y.b6.isLt g13 g14)
  have e7 : x.b7 = y.b7 := Fin.val_injective (byte_recover _ _ x.b7.isLt y.b7.isLt g15 g16)
  have e8 : x.b8 = y.b8 := Fin.val_injective (byte_recover _ _ x.b8.isLt y.b8.isLt g17 g18)
  have e9 : x.b9 = y.b9 := Fin.val_injective (byte_recover _ _ x.b9.isLt y.b9.isLt g19 g20)
  have e10 : x.b10 = y.b10 := Fin.val_injective (byte_recover _ _ x.b10.isLt y.b10.isLt g21 g22)
  have e11 : x.b11 = y.b11 := Fin.val_injective (byte_recover _ _ x.b11.isLt y.b11.isLt g23 g24)
  have e12 : x.b12 = y.b12 := Fin.val_injective (byte_recover _ _ x.b12.isLt y.b12.isLt g25 g26)
  have e13 : x.b13 = y.b13 := Fin.val_injective (byte_recover _ _ x.b13.isLt y.b13.isLt g27 g28)
  have e14 : x.b14 = y.b14 := Fin.val_injective (byte_recover _ _ x.b14.isLt y.b14.isLt g29 g30)
  have e15 : x.b15 = y.b15 := Fin.val_injective (byte_recover _ _ x.b15.isLt y.b15.isLt g31 g32)
  exact Bytes16.ext e0 e1 e2 e3 e4 e5 e6 e7 e8 e9 e10 e11 e12 e13 e14 e15

theorem uuidChars_length (x : Bytes16) : (uuidChars x).length = 36 := by
  simp [uuidChars, byteHex]

theorem byteHex_all_isId (n : Nat) (h : n < 256) : (byteHex n).all isIdChar = true := by
  simp only [byteHex, List.all_cons, List.all_nil, Bool.and_true, Bool.and_eq_true]
  exact ⟨hexDigit_isId (n / 16) (by omega), hexDigit_isId (n % 16) (by omega)⟩

theorem uuidChars_all_isId (x : Bytes16) : (uuidChars x).all isIdChar = true := by
  have h0 := byteHex_all_isId x.b0.val x.b0.isLt
  have h1 := byteHex_all_isId x.b1.val x.b1.isLt
  have h2 := byteHex_all_isId x.b2.val x.b2.isLt
  have h3 := byteHex_all_isId x.b3.val x.b3.isLt
  have h4 := byteHex_all_isId x.b4.val x.b4.isLt
  have h5 := byteHex_all_isId x.b5.val x.b5.isLt
  have h6 := byteHex_all_isId x.b6.val x.b6.isLt
  have h7 := byteHex_all_isId x.b7.val x.b7.isLt
  have h8 := byteHex_all_isId x.b8.val x.b8.isLt
  have h9 := byteHex_all_isId x.b9.val x.b9.isLt
  have h10 := byteHex_all_isId x.b10.val x.b10.isLt
  have h11 := byteHex_all_isId x.b11.val x.b11.isLt
  have h12 := byteHex_all_isId x.b12.val x.b12.isLt
  have h13 := byteHex_all_isId x.b13.val x.b13.isLt
  have h14 := byteHex_all_isId x.b14.val x.b14.isLt
  have h15 := byteHex_all_isId x.b15.val x.b15.isLt
  simp [uuidChars, List.all_append, h0, h1, h2, h3, h4, h5, h6, h7, h8, h9, h10,
    h11, h12, h13, h14, h15, isIdChar]

theorem validId_mk (l : List Char) (h20 : 20 ≤ l.length) (hall : l.all isIdChar = true) :
    validId (String.mk l) = true := by
  simp [validId, String.length_mk, hall, h20]

theorem validId_randomUUID (r : Bytes16) : validId (randomUUID r) = true :=
  validId_mk _ (by rw [uuidChars_length]; omega) (uuidChars_all_isId _)

theorem randomUUID_length (r : Bytes16) : (randomUUID r).length = 36 := by
  show (String.mk (uuidChars (setVersionVariant r))).length = 36
  rw [String.length_mk, uuidChars_length]

theorem objectKey_injective : Function.Injective objectKey := by
  intro a b h
  have hd : a.data ++ ".mp4".data = b.data ++ ".mp4".data := by
    have h2 := congrArg String.data h
    simpa [objectKey, String.data_append] using h2
  have hdata : a.data = b.data := List.append_cancel_right hd
  obtain ⟨la⟩ := a
  obtain ⟨lb⟩ := b
  exact congrArg String.mk hdata

theorem stripTrailingSlashes_eq_self (s : String) (h : s.data.getLast? ≠ some '/') :
    stripTrailingSlashes s = s := by
  obtain ⟨l⟩ := s
  unfold stripTrailingSlashes
  cases hr : l.reverse with
  | nil =>
    have hl : l = [] := by simpa using congrArg List.reverse hr
    simp [hr, hl]
  | cons c t =>
    have hne : c ≠ '/' := by
      intro hcc
      apply h
      have hg : l.getLast? = some c := by
        rw [← List.head?_reverse, hr]
        rfl
      rw [hg, hcc]
    have hc : (c == '/') = false := by simp [hne]
    rw [List.dropWhile_cons]
    simp only [hc, Bool.false_eq_true, if_false]
    have hrev : (c :: t).reverse = l := by
      rw [← hr, List.reverse_reverse]
    simp [hrev]

/-! Claim theorems. -/

/-- C1 counterexample: a syntactically valid identifier that was never
uploaded (the store is empty).  GET /raw/ answers 302, not 404: signing does
not check existence, so the route redirects to a signed URL for the missing
object instead of producing the claimed 404. -/
theorem raw_unuploaded_not404_cex :
    ("aaaaaaaaaaaaaaaaaaaa.mp4" : String) ∉ ([] : List String) ∧
    validId "aaaaaaaaaaaaaaaaaaaa" = true ∧
    (rawRoute sampleCfg [] presign "aaaaaaaaaaaaaaaaaaaa").1.status = 302 ∧
    (rawRoute sampleCfg [] presign "aaaaaaaaaaaaaaaaaaaa").1.status ≠ 404 := by
  decide

/-- C1 (amended): for a syntactically valid identifier that was never
uploaded, GET /raw/ does not answer 404 when signing succeeds: the response
is independent of the store contents, a 302 redirect to the signed URL when
the presign call returns one (an existence check is never made, so the
not-found surfaces only when the signed URL is later fetched), and a 404
exactly when the signing call itself fails. -/
theorem raw_unuploaded_behavior (cfg : Config) (store : List String)
    (sign : String → Nat → Except String String) (id : String)
    (hid : validId id = true) (hnu : (id ++ ".mp4") ∉ store) :
    (∀ u, sign (id ++ ".mp4") 600 = .ok u →
      rawRoute cfg store sign id =
        (.redirect 302 u, some ⟨cfg.s3Bucket, id ++ ".mp4", 600⟩)) ∧
    (∀ e, sign (id ++ ".mp4") 600 = .error e →
      rawRoute cfg store sign id =
        (.text 404 "Not found", some ⟨cfg.s3Bucket, id ++ ".mp4", 600⟩)) := by
  constructor
  · intro u hu
    simp [rawRoute, hid, hu]
  · intro e he
    simp [rawRoute, hid, he]

/-- C1 witness: the amended behaviour at the concrete never-uploaded
identifier of twenty letters a, with the presigner model. -/
theorem raw_unuploaded_behavior_witness :
    rawRoute sampleCfg [] presign "aaaaaaaaaaaaaaaaaaaa" =
      (.redirect 302 "https://store.example/aaaaaaaaaaaaaaaaaaaa.mp4?expires=600",
       some ⟨"bucket", "aaaaaaaaaaaaaaaaaaaa.mp4", 600⟩) :=
  (raw_unuploaded_behavior sampleCfg [] presign "aaaaaaaaaaaaaaaaaaaa" (by decide)
    (List.not_mem_nil _)).1
    "https://store.example/aaaaaaaaaaaaaaaaaaaa.mp4?expires=600" rfl

/-- C2 counterexample: two distinct 128-bit random draws, differing in the
version nibble of byte 6, produce the same identifier, so not all 128 bits of
the token are drawn from the randomness source; moreover character 14 of the
token is the fixed version digit 4 and character 19 the fixed variant
digit. -/
theorem randomUUID_fixed_bits_cex :
    sampleBytesB ≠ sampleBytes ∧
    randomUUID sampleBytesB = randomUUID sampleBytes ∧
    (randomUUID sampleBytes).data.getD 14 '?' = '4' ∧
    (randomUUID sampleBytes).data.getD 19 '?' = '8' := by
  decide

/-- C2 (amended): every call of the identifier generator produces a
UUID-format hyphenated hex string of 36 characters that satisfies the
identifier format predicate, in which 122 bits are drawn from the randomness
source while the version nibble of byte 6 is fixed to 4 and the two variant
bits of byte 8 to the pattern 10: two draws collide exactly when they agree
after the version and variant masking. -/
theorem randomUUID_v4_bits (r r2 : Bytes16) :
    validId (randomUUID r) = true ∧
    (randomUUID r).length = 36 ∧
    (setVersionVariant r).b6.val / 16 = 4 ∧
    (setVersionVariant r).b8.val / 64 = 2 ∧
    (randomUUID r = randomUUID r2 ↔ setVersionVariant r = setVersionVariant r2) := by
  refine ⟨validId_randomUUID r, randomUUID_length r, ?_, ?_, ?_⟩
  · show (r.b6.val % 16 + 64) / 16 = 4
    omega
  · show (r.b8.val % 64 + 128) / 64 = 2
    omega
  · constructor
    · intro h
      exact uuidChars_inj _ _ (congrArg String.data h)
    · intro h
      unfold randomUUID
      rw [h]

/-- C4: an identifier failing the format predicate is answered 400 Bad id by
both the viewer route and the raw route, and neither issues any object-store
operation. -/
theorem invalid_id_400_no_store (cfg : Config) (store : List String)
    (sign : String → Nat → Except String String) (id : String)
    (h : validId id = false) :
    vRoute id = (.text 400 "Bad id", none) ∧
    rawRoute cfg store sign id = (.text 400 "Bad id", none) := by
  constructor
  · simp [vRoute, h]
  · simp [rawRoute, h]

/-- C4 witness: the malformed identifier ab is rejected 400 by both routes
with no store operation. -/
theorem invalid_id_400_no_store_witness :
    vRoute "ab" = (.text 400 "Bad id", none) ∧
    rawRoute sampleCfg [] presign "ab" = (.text 400 "Bad id", none) :=
  invalid_id_400_no_store sampleCfg [] presign "ab" (by decide)

/-- C10: the identifier format predicate does not require a hex digit: the
string of twenty hyphens is accepted, and GET /raw/ for it proceeds to
request a signed URL for the key of twenty hyphens followed by .mp4 and
answers 302, not 400. -/
theorem all_hyphens_id_accepted :
    validId "--------------------" = true ∧
    rawRoute sampleCfg [] presign "--------------------" =
      (.redirect 302 "https://store.example/--------------------.mp4?expires=600",
       some ⟨"bucket", "--------------------.mp4", 600⟩) ∧
    (rawRoute sampleCfg [] presign "--------------------").1.status = 302 := by
  decide

/-- C3: for a valid MP4 upload within the 250 MiB ceiling whose put the
store accepts, the upload route answers with an id satisfying the identifier
format predicate and a url equal to the public base URL, trailing slashes
stripped, joined with /v/ and the id; when the configured base URL has no
trailing slash this is literally the base URL followed by /v/ and the id. -/
theorem upload_success_id_url (cfg : Config) (f : IncomingFile) (r : Bytes16)
    (now : String) (hm : f.mimetype = "video/mp4")
    (hs : f.size ≤ 250 * 1024 * 1024) :
    validId (randomUUID r) = true ∧
    (uploadRoute cfg (some f) r now (.ok ())).1 =
      .jsonOk (randomUUID r)
        (stripTrailingSlashes cfg.publicBaseUrl ++ "/v/" ++ randomUUID r) ∧
    (cfg.publicBaseUrl.data.getLast? ≠ some '/' →
      (uploadRoute cfg (some f) r now (.ok ())).1 =
        .jsonOk (randomUUID r) (cfg.publicBaseUrl ++ "/v/" ++ randomUUID r)) := by
  have hlt : ¬ (250 * 1024 * 1024 < f.size) := by omega
  refine ⟨validId_randomUUID r, ?_, ?_⟩
  · simp [uploadRoute, hm, hlt]
  · intro hsl
    simp [uploadRoute, hm, hlt, stripTrailingSlashes_eq_self _ hsl]

/-- C3 witness: a concrete five-byte MP4 upload against the sample
configuration whose base URL has no trailing slash. -/
theorem upload_success_id_url_witness :
    validId (randomUUID sampleBytes) = true ∧
    (uploadRoute sampleCfg (some sampleFile) sampleBytes "2026-01-01T00:00:00.000Z"
        (.ok ())).1 =
      .jsonOk (randomUUID sampleBytes)
        ("https://example.com" ++ "/v/" ++ randomUUID sampleBytes) := by
  have h := upload_success_id_url sampleCfg sampleFile sampleBytes
    "2026-01-01T00:00:00.000Z" rfl (by decide)
  exact ⟨h.1, h.2.2 (by decide)⟩

/-- C5: an upload whose declared content type is not video/mp4 is rejected
by the fileFilter with the 400 client error carrying multer's message, and
no PutObjectCommand is issued. -/
theorem upload_wrong_type_rejected (cfg : Config) (f : IncomingFile) (r : Bytes16)
    (now : String) (p : Except String Unit) (h : f.mimetype ≠ "video/mp4") :
    uploadRoute cfg (some f) r now p = (.jsonError 400 "Only video/mp4 allowed", none) ∧
    (uploadRoute cfg (some f) r now p).1.status = 400 ∧
    (uploadRoute cfg (some f) r now p).2 = none := by
  have h1 : uploadRoute cfg (some f) r now p =
      (.jsonError 400 "Only video/mp4 allowed", none) := by
    simp [uploadRoute, h]
  exact ⟨h1, by rw [h1]; rfl, by rw [h1]⟩

/-- C5 witness: a video/webm upload is rejected 400 with no write. -/
theorem upload_wrong_type_rejected_witness :
    uploadRoute sampleCfg (some webmFile) sampleBytes "2026-01-01T00:00:00.000Z" (.ok ()) =
      (.jsonError 400 "Only video/mp4 allowed", none) ∧
    (uploadRoute sampleCfg (some webmFile) sampleBytes "2026-01-01T00:00:00.000Z"
        (.ok ())).1.status = 400 ∧
    (uploadRoute sampleCfg (some webmFile) sampleBytes "2026-01-01T00:00:00.000Z"
        (.ok ())).2 = none :=
  upload_wrong_type_rejected sampleCfg webmFile sampleBytes "2026-01-01T00:00:00.000Z"
    (.ok ()) (by decide)

/-- C6: an upload whose size exceeds the 250 MiB ceiling issues no
PutObjectCommand and is answered with a 400 client error; when the declared
type is video/mp4 the error is multer's File too large for the exceeded
fileSize limit. -/
theorem upload_too_large_rejected (cfg : Config) (f : IncomingFile) (r : Bytes16)
    (now : String) (p : Except String Unit) (h : 250 * 1024 * 1024 < f.size) :
    (uploadRoute cfg (some f) r now p).2 = none ∧
    (uploadRoute cfg (some f) r now p).1.status = 400 ∧
    (f.mimetype = "video/mp4" →
      uploadRoute cfg (some f) r now p = (.jsonError 400 "File too large", none)) := by
  by_cases hm : f.mimetype = "video/mp4"
  · have h1 : uploadRoute cfg (some f) r now p = (.jsonError 400 "File too large", none) := by
      simp [uploadRoute, hm, h]
    exact ⟨by rw [h1], by rw [h1]; rfl, fun _ => h1⟩
  · have h1 : uploadRoute cfg (some f) r now p =
        (.jsonError 400 "Only video/mp4 allowed", none) := by
      simp [uploadRoute, hm]
    exact ⟨by rw [h1], by rw [h1]; rfl, fun hc => absurd hc hm⟩

/-- C6 witness: an MP4 upload one byte above the ceiling is rejected 400
File too large with no write. -/
theorem upload_too_large_rejected_witness :
    (uploadRoute sampleCfg (some bigFile) sampleBytes "2026-01-01T00:00:00.000Z"
        (.ok ())).2 = none ∧
    (uploadRoute sampleCfg (some bigFile) sampleBytes "2026-01-01T00:00:00.000Z"
        (.ok ())).1.status = 400 ∧
    uploadRoute sampleCfg (some bigFile) sampleBytes "2026-01-01T00:00:00.000Z" (.ok ()) =
      (.jsonError 400 "File too large", none) := by
  have h := upload_too_large_rejected sampleCfg bigFile sampleBytes
    "2026-01-01T00:00:00.000Z" (.ok ()) (by decide)
  exact ⟨h.1, h.2.1, h.2.2 rfl⟩

/-- C7: for a valid identifier the raw route issues exactly one presign
request, for the key id plus .mp4 with expiresIn equal to 600 seconds, and
when the presigner returns a URL the response is a 302 redirect to it. -/
theorem raw_sign_ttl600_redirect (cfg : Config) (store : List String)
    (sign : String → Nat → Except String String) (id : String)
    (hid : validId id = true) :
    (rawRoute cfg store sign id).2 = some ⟨cfg.s3Bucket, id ++ ".mp4", 600⟩ ∧
    (∀ u, sign (id ++ ".mp4") 600 = .ok u →
      (rawRoute cfg store sign id).1 = .redirect 302 u) := by
  cases hsign : sign (id ++ ".mp4") 600 with
  | ok u =>
    have h1 : rawRoute cfg store sign id =
        (.redirect 302 u, some ⟨cfg.s3Bucket, id ++ ".mp4", 600⟩) := by
      simp [rawRoute, hid, hsign]
    refine ⟨by rw [h1], fun u2 hu2 => ?_⟩
    injection hu2 with hu3
    rw [h1, hu3]
  | error e =>
    have h1 : rawRoute cfg store sign id =
        (.text 404 "Not found", some ⟨cfg.s3Bucket, id ++ ".mp4", 600⟩) := by
      simp [rawRoute, hid, hsign]
    refine ⟨by rw [h1], fun u2 hu2 => ?_⟩
    injection hu2

/-- C7 witness: the concrete valid identifier of twenty letters b is signed
with expiresIn 600 and answered with the 302 redirect to the signed URL. -/
theorem raw_sign_ttl600_redirect_witness :
    (rawRoute sampleCfg [] presign "bbbbbbbbbbbbbbbbbbbb").1 =
      .redirect 302 "https://store.example/bbbbbbbbbbbbbbbbbbbb.mp4?expires=600" :=
  (raw_sign_ttl600_redirect sampleCfg [] presign "bbbbbbbbbbbbbbbbbbbb" (by decide)).2
    "https://store.example/bbbbbbbbbbbbbbbbbbbb.mp4?expires=600" rfl

/-- C8: the key written by a successful upload and the key signed by the raw
route are both obtained from one identifier by the same fixed mapping, id
followed by .mp4, and that mapping is injective, so every stored object's
key is derivable from exactly one identifier. -/
theorem object_key_mapping (cfg : Config) (f : IncomingFile) (r : Bytes16)
    (now : String) (p : Except String Unit) (store : List String)
    (sign : String → Nat → Except String String) (id : String)
    (hm : f.mimetype = "video/mp4") (hs : f.size ≤ 250 * 1024 * 1024)
    (hid : validId id = true) :
    ((uploadRoute cfg (some f) r now p).2).map PutCommand.key =
      some (objectKey (randomUUID r)) ∧
    ((rawRoute cfg store sign id).2).map SignRequest.key = some (objectKey id) ∧
    Function.Injective objectKey := by
  have hlt : ¬ (250 * 1024 * 1024 < f.size) := by omega
  refine ⟨?_, ?_, objectKey_injective⟩
  · cases p <;> simp [uploadRoute, hm, hlt, objectKey]
  · cases hsign : sign (id ++ ".mp4") 600 <;> simp [rawRoute, hid, hsign, objectKey]

/-- C8 witness: the mapping at a concrete upload and a concrete raw request. -/
theorem object_key_mapping_witness :
    ((uploadRoute sampleCfg (some sampleFile) sampleBytes "2026-01-01T00:00:00.000Z"
        (.ok ())).2).map PutCommand.key = some (objectKey (randomUUID sampleBytes)) ∧
    ((rawRoute sampleCfg [] presign "aaaaaaaaaaaaaaaaaaaa").2).map SignRequest.key =
      some (objectKey "aaaaaaaaaaaaaaaaaaaa") ∧
    Function.Injective objectKey :=
  object_key_mapping sampleCfg sampleFile sampleBytes "2026-01-01T00:00:00.000Z" (.ok ())
    [] presign "aaaaaaaaaaaaaaaaaaaa" rfl (by decide) (by decide)

/-- C9 counterexample: an upload whose multipart filename is the empty
string stores originalname video.mp4, while the uploaded filename truncated
to 200 characters is the empty string, so the stored metadata is not equal
to the truncated filename. -/
theorem upload_metadata_originalname_cex :
    ((uploadRoute sampleCfg (some emptyNameFile) sampleBytes "2026-01-01T00:00:00.000Z"
        (.ok ())).2).map PutCommand.originalname = some "video.mp4" ∧
    jsSlice "" 200 = "" ∧
    ("video.mp4" : String) ≠ "" := by
  decide

/-- C9 (amended): every upload that passes validation issues exactly one
PutObjectCommand storing the file bytes with content type video/mp4, the
immutable year-long cache-control header, uploadedat equal to the current
timestamp, and originalname equal to the uploaded filename truncated to 200
characters except that the default video.mp4 is substituted when the
filename is absent or empty; the stored originalname never exceeds 200
characters, and equals the truncated filename whenever the filename is a
nonempty string. -/
theorem upload_put_object_fields (cfg : Config) (f : IncomingFile) (r : Bytes16)
    (now : String) (p : Except String Unit)
    (hm : f.mimetype = "video/mp4") (hs : f.size ≤ 250 * 1024 * 1024) :
    (uploadRoute cfg (some f) r now p).2 =
      some ⟨cfg.s3Bucket, randomUUID r ++ ".mp4", f.buffer, "video/mp4",
        "public, max-age=31536000, immutable",
        jsSlice (jsOr f.originalname "video.mp4") 200, now⟩ ∧
    (∀ s, f.originalname = some s → s ≠ "" →
      jsSlice (jsOr f.originalname "video.mp4") 200 = jsSlice s 200) ∧
    (jsSlice (jsOr f.originalname "video.mp4") 200).length ≤ 200 := by
  have hlt : ¬ (250 * 1024 * 1024 < f.size) := by omega
  refine ⟨?_, ?_, ?_⟩
  · cases p <;> simp [uploadRoute, hm, hlt]
  · intro s hso hsne
    rw [hso]
    simp [jsOr, hsne]
  · show (String.mk ((jsOr f.originalname "video.mp4").data.take 200)).length ≤ 200
    rw [String.length_mk, List.length_take]
    exact min_le_left _ _

/-- C9 witness: the concrete upload with filename clip.mp4 stores exactly
the expected PutObjectCommand. -/
theorem upload_put_object_fields_witness :
    (uploadRoute sampleCfg (some sampleFile) sampleBytes "2026-01-01T00:00:00.000Z"
        (.ok ())).2 =
      some ⟨"bucket", randomUUID sampleBytes ++ ".mp4", [0, 1, 2, 3, 4], "video/mp4",
        "public, max-age=31536000, immutable", "clip.mp4", "2026-01-01T00:00:00.000Z"⟩ :=
  (upload_put_object_fields sampleCfg sampleFile sampleBytes "2026-01-01T00:00:00.000Z"
    (.ok ()) rfl (by decide)).1
